import Mathlib

/-!
Shallow embedding of the escrow lifecycle client of the
xmr-eth-atomic-swap repository.

The embedded code:
  * `src/ethereum/oneinch/escrow_integration.go` — `SwapParams`,
    `XMREscrowClient`, `NewXMREscrowClient`, `getAuth`,
    `calculateEscrowAddress`, `CreateSwap`, `ClaimSwap`, `RefundSwap`,
    `GetSwapState`, `ConvertSwapCreatorSwapToParams`;
  * `src/common/escrow.go` — `GetEscrowAddressesFromEnv`,
    `GetEscrowAddressesWithFallback`.

Modelling conventions: an Ethereum account address is a `Nat` (the zero
address is `0`); a 32-byte value (`[32]byte`, commitments, secrets) and a
`uint256` argument are `Nat`; Go `*big.Int` is `Int`; a Go `nil`-able
pointer is an `Option`; the Ethereum node is a `Network` record of the
responses the client can ask from it, so a client function is a function
of the `Network` and its Go arguments.
-/

namespace XmrEthSwap

/-- An Ethereum account address (20 bytes); `0` is the zero address. -/
abbrev Address := Nat

/-- A 32-byte word: commitments, secrets, and `uint256` values. -/
abbrev Word := Nat

/-- An opaque handle to a broadcast transaction (`*types.Transaction`). -/
abbrev Tx := Nat

/-- Go `error` values that appear in the embedded code: the package-level
sentinel errors declared in `escrow_integration.go` lines 23-35, errors
built with `errors.New`/`fmt.Errorf` inside a function, errors produced by
the `abi` package while packing or unpacking, and errors coming back from
the node / the geth transport layer. -/
inductive GoError where
  | errInvalidAddress
  | errTransactionFailed
  | errContractNotFound
  | errInvalidSwapParams
  | errInsufficientFunds
  | errSwapAlreadyExists
  | errSwapDoesNotExist
  | errInvalidSwapState
  | errInvalidSecret
  | errTimeoutNotReached
  | errTimeoutExceeded
  | errNew (msg : String)
  | abiError (msg : String)
  | transport (msg : String)
deriving DecidableEq

/-- The seven `ContractRevertError` sub-variants named by the spec,
as the package-level sentinel errors of `escrow_integration.go`. -/
def isContractRevertSentinel : GoError → Bool
  | .errInvalidSecret => true
  | .errInvalidSwapState => true
  | .errTimeoutNotReached => true
  | .errTimeoutExceeded => true
  | .errSwapAlreadyExists => true
  | .errSwapDoesNotExist => true
  | .errInsufficientFunds => true
  | _ => false

/-- One argument of an ABI-packed contract call. -/
inductive ABIValue where
  | addr (a : Address)
  | word (w : Word)
  | uint (n : Int)
deriving DecidableEq

/-- The result of `abi.Pack`: the method name (standing for its selector)
followed by the arguments in the order they were passed. -/
structure PackedCall where
  method : String
  args : List ABIValue
deriving DecidableEq

/-- The `bind.TransactOpts` fields the embedded code sets in `getAuth`:
`auth.Nonce` (a `*big.Int` built by `big.NewInt(int64(nonce))`),
`auth.Value`, `auth.GasLimit`, `auth.GasPrice`, plus the chain id the
signer was bound to. -/
structure TransactOpts where
  nonce : Int
  value : Int
  gasLimit : Nat
  gasPrice : Int
  chainID : Int
deriving DecidableEq

/-- The Ethereum node, as the responses the client can ask from it:
`PendingNonceAt` (a `uint64`), `SuggestGasPrice`, `ChainID`,
`CallContract` (target address and packed data to raw return bytes), and
`Transact` of a bound contract (target address, transact opts, packed
data to a broadcast transaction handle). -/
structure Network where
  pendingNonce : Except GoError Nat
  gasPrice : Except GoError Int
  chainID : Except GoError Int
  callContract : Address → PackedCall → Except GoError (List Nat)
  transact : Address → TransactOpts → PackedCall → Except GoError Tx

/-- Big-endian value of a byte string (each byte taken mod 256). -/
def bytesToNat (bs : List Nat) : Nat :=
  bs.foldl (fun acc b => acc * 256 + b % 256) 0

/-- `abi.UnpackIntoInterface` for a single `address` output: geth requires
a 32-byte word and takes its last 20 bytes, without validating the
leading 12. -/
def unpackAddress (bs : List Nat) : Except GoError Address :=
  if bs.length < 32 then .error (.abiError "abi: improperly formatted output")
  else .ok (bytesToNat ((bs.take 32).drop 12))

/-- `abi.UnpackIntoInterface` for a single `uint8` output: geth reads the
32-byte word as an integer and rejects values above 255. -/
def unpackUint8 (bs : List Nat) : Except GoError Nat :=
  if bs.length < 32 then .error (.abiError "abi: improperly formatted output")
  else
    let n := bytesToNat (bs.take 32)
    if n < 256 then .ok n
    else .error (.abiError "abi: improperly encoded uint8 value")

/-- `SwapParams` of `escrow_integration.go` lines 37-46. `Timeout1`,
`Timeout2` and `Value` are `*big.Int` in the source, hence `Int` here. -/
structure SwapParams where
  claimer : Address
  claimCommitment : Word
  refundCommitment : Word
  timeout1 : Int
  timeout2 : Int
  asset : Address
  value : Int
deriving DecidableEq

/-- The data of an `XMREscrowClient` that the embedded operations read:
its factory and adapter addresses. The `ethclient`, `SwapCreator` and
private-key references are opaque and guaranteed present by the
constructor; the three parsed ABIs are constants. -/
structure XMREscrowClient where
  factoryAddress : Address
  adapterAddress : Address
deriving DecidableEq

/-- `NewXMREscrowClient`, lines 63-116: the five argument checks in source
order. The three ABI loads parse constant JSON strings and are modelled as
always succeeding. -/
def NewXMREscrowClient (client : Option Unit) (swapCreator : Option Unit)
    (factoryAddress adapterAddress : Address) (privateKey : Option Unit) :
    Except GoError XMREscrowClient :=
  if client = none then .error (.errNew "ethclient is required")
  else if swapCreator = none then .error (.errNew "swap creator is required")
  else if privateKey = none then .error (.errNew "private key is required")
  else if factoryAddress = 0 then .error (.errNew "factory address is required")
  else if adapterAddress = 0 then .error (.errNew "adapter address is required")
  else .ok ⟨factoryAddress, adapterAddress⟩

/-- Go's `int64(n)` on a `uint64` value: two's-complement
reinterpretation. -/
def int64ofUInt64 (n : Nat) : Int :=
  if n % 2 ^ 64 < 2 ^ 63 then ((n % 2 ^ 64 : Nat) : Int)
  else ((n % 2 ^ 64 : Nat) : Int) - 2 ^ 64

/-- `getAuth`, lines 119-146: fetch pending nonce, gas price and chain id,
each independently fallible; on success build the transact opts with
`Nonce = big.NewInt(int64(nonce))`, `Value = 0`, `GasLimit = 300000` and
the suggested gas price. (`bind.NewKeyedTransactorWithChainID` cannot fail
here: the key is non-nil by construction and the chain id was returned
non-nil.) -/
def getAuth (net : Network) : Except GoError TransactOpts :=
  match net.pendingNonce with
  | .error e => .error e
  | .ok nonce =>
    match net.gasPrice with
    | .error e => .error e
    | .ok gasPrice =>
      match net.chainID with
      | .error e => .error e
      | .ok chainID =>
        .ok { nonce := int64ofUInt64 nonce
              value := 0
              gasLimit := 300000
              gasPrice := gasPrice
              chainID := chainID }

/-- The `abi.Pack` call of `calculateEscrowAddress`, lines 151-159: the
adapter address followed by the seven `SwapParams` fields, in source
order. -/
def packCalculateEscrowAddress (adapter : Address) (p : SwapParams) : PackedCall :=
  { method := "calculateEscrowAddress"
    args := [.addr adapter, .addr p.claimer, .word p.claimCommitment,
             .word p.refundCommitment, .uint p.timeout1, .uint p.timeout2,
             .addr p.asset, .uint p.value] }

/-- `calculateEscrowAddress`, lines 149-183: pack the call, execute it as
a read against the factory address, unpack a single address. -/
def calculateEscrowAddress (net : Network) (c : XMREscrowClient) (p : SwapParams) :
    Except GoError Address :=
  let data := packCalculateEscrowAddress c.adapterAddress p
  match net.callContract c.factoryAddress data with
  | .error e => .error e
  | .ok result => unpackAddress result

/-- The value override of `CreateSwap`, lines 193-196: if `params.Asset`
is the zero address, set `auth.Value` to `params.Value`; otherwise the
opts are left as built. -/
def createSwapOpts (auth : TransactOpts) (p : SwapParams) : TransactOpts :=
  if p.asset = 0 then { auth with value := p.value } else auth

/-- The `deposit` call packed by `CreateSwap`, lines 206-214: the adapter
address followed by the seven `SwapParams` fields, in source order. -/
def packDeposit (adapter : Address) (p : SwapParams) : PackedCall :=
  { method := "deposit"
    args := [.addr adapter, .addr p.claimer, .word p.claimCommitment,
             .word p.refundCommitment, .uint p.timeout1, .uint p.timeout2,
             .addr p.asset, .uint p.value] }

/-- The Go triple returned by `CreateSwap` (`*types.Transaction`,
`common.Address`, `error`), together with a ghost flag recording whether
the deposit call was handed to the transact layer at all (it is `false`
exactly on the early-return paths before `contract.Transact`). -/
structure CreateSwapResult where
  tx : Option Tx
  escrowAddress : Address
  err : Option GoError
  submitted : Bool
deriving DecidableEq

/-- `CreateSwap`, lines 186-221: build the transact opts; override the
value for native-asset swaps; resolve the predicted escrow address; then
submit the `deposit` call to the factory. Every early failure returns the
zero address and that error. -/
def CreateSwap (net : Network) (c : XMREscrowClient) (p : SwapParams) :
    CreateSwapResult :=
  match getAuth net with
  | .error e => ⟨none, 0, some e, false⟩
  | .ok auth0 =>
    let auth := createSwapOpts auth0 p
    match calculateEscrowAddress net c p with
    | .error e => ⟨none, 0, some e, false⟩
    | .ok escrowAddress =>
      match net.transact c.factoryAddress auth (packDeposit c.adapterAddress p) with
      | .error e => ⟨none, 0, some e, true⟩
      | .ok tx => ⟨some tx, escrowAddress, none, true⟩

/-- The `withdraw` call packed by `ClaimSwap`, line 233. -/
def packWithdraw (secret : Word) : PackedCall :=
  { method := "withdraw", args := [.word secret] }

/-- The `refund` call packed by `RefundSwap`, line 252. -/
def packRefund (refundKey : Word) : PackedCall :=
  { method := "refund", args := [.word refundKey] }

/-- `ClaimSwap`, lines 224-240: build the transact opts, then submit the
`withdraw` call carrying the secret to the escrow address. The error of
either step is returned as-is. -/
def ClaimSwap (net : Network) (c : XMREscrowClient) (escrowAddress : Address)
    (secret : Word) : Except GoError Tx :=
  match getAuth net with
  | .error e => .error e
  | .ok auth => net.transact escrowAddress auth (packWithdraw secret)

/-- `RefundSwap`, lines 243-259: symmetric to `ClaimSwap` with the
`refund` call. -/
def RefundSwap (net : Network) (c : XMREscrowClient) (escrowAddress : Address)
    (refundKey : Word) : Except GoError Tx :=
  match getAuth net with
  | .error e => .error e
  | .ok auth => net.transact escrowAddress auth (packRefund refundKey)

/-- The `getState` call packed by `GetSwapState`, line 264. -/
def packGetState : PackedCall := { method := "getState", args := [] }

/-- `GetSwapState`, lines 262-288: read-only call to the escrow address,
unpacking a single `uint8`. The raw code is returned without any mapping
or range restriction beyond the ABI decoder's own. -/
def GetSwapState (net : Network) (escrowAddress : Address) : Except GoError Nat :=
  match net.callContract escrowAddress packGetState with
  | .error e => .error e
  | .ok result => unpackUint8 result

/-- The fields of the external `contracts.SwapCreatorSwap` record that
`ConvertSwapCreatorSwapToParams` reads (the type itself lives in the
`github.com/athanorlabs/atomic-swap/ethereum` bindings, outside this
repository's sources). -/
structure SwapCreatorSwap where
  claimer : Address
  claimCommitment : Word
  refundCommitment : Word
  timeout1 : Int
  timeout2 : Int
  asset : Address
  value : Int
deriving DecidableEq

/-- `ConvertSwapCreatorSwapToParams`, lines 290-301: copy the seven
fields. -/
def ConvertSwapCreatorSwapToParams (swap : SwapCreatorSwap) : SwapParams :=
  { claimer := swap.claimer
    claimCommitment := swap.claimCommitment
    refundCommitment := swap.refundCommitment
    timeout1 := swap.timeout1
    timeout2 := swap.timeout2
    asset := swap.asset
    value := swap.value }

/-- Modelled from the spec: the reverse conversion, from `SwapParameters`
back to an on-chain swap record, is not present in the sources (the spec's
round-trip property presupposes it); it is the field-wise inverse. -/
def ConvertParamsToSwapCreatorSwap (p : SwapParams) : SwapCreatorSwap :=
  { claimer := p.claimer
    claimCommitment := p.claimCommitment
    refundCommitment := p.refundCommitment
    timeout1 := p.timeout1
    timeout2 := p.timeout2
    asset := p.asset
    value := p.value }

/-- Whether `c` is a hexadecimal digit (geth `isHexCharacter`). -/
def isHexChar (c : Char) : Bool :=
  ('0' ≤ c && c ≤ '9') || ('a' ≤ c && c ≤ 'f') || ('A' ≤ c && c ≤ 'F')

/-- geth `isHex`: even length and every character a hex digit. -/
def isHexGo (s : List Char) : Bool :=
  s.length % 2 == 0 && s.all isHexChar

/-- geth `has0xPrefix`: a leading `0x` or `0X`. -/
def startsWith0xGo (s : List Char) : Bool :=
  match s with
  | '0' :: c :: _ => c == 'x' || c == 'X'
  | _ => false

/-- Go `strings.HasPrefix(s, "0x")`, the exact check used in
`src/common/escrow.go` before prepending the prefix. -/
def startsWith0xExact (s : List Char) : Bool :=
  match s with
  | '0' :: 'x' :: _ => true
  | _ => false

/-- Strip a leading `0x`/`0X` when present (geth behaviour inside
`IsHexAddress` and `FromHex`). -/
def stripHexGo (s : List Char) : List Char :=
  if startsWith0xGo s then s.drop 2 else s

/-- geth `common.IsHexAddress`: after stripping an optional `0x`/`0X`
prefix, exactly 40 hex characters. -/
def IsHexAddress (s : List Char) : Bool :=
  let t := stripHexGo s
  t.length == 40 && isHexGo t

/-- Numeric value of a hex digit (0 for a non-digit; only reached after
validation in the embedded code). -/
def hexVal (c : Char) : Nat :=
  if '0' ≤ c ∧ c ≤ '9' then c.toNat - '0'.toNat
  else if 'a' ≤ c ∧ c ≤ 'f' then c.toNat - 'a'.toNat + 10
  else if 'A' ≤ c ∧ c ≤ 'F' then c.toNat - 'A'.toNat + 10
  else 0

/-- geth `common.HexToAddress`: strip the prefix, pad to even length,
decode the hex digits and keep the low 20 bytes. -/
def HexToAddress (s : List Char) : Address :=
  let t := stripHexGo s
  let t := if t.length % 2 = 1 then '0' :: t else t
  (t.foldl (fun acc c => acc * 16 + hexVal c) 0) % 2 ^ 160

/-- The values of the two environment variables read by
`src/common/escrow.go` (`ESCROW_FACTORY_ADDRESS` and
`ESCROW_ADAPTER_ADDRESS`); `os.Getenv` yields the empty string when a
variable is unset. -/
structure Env where
  factoryVar : List Char
  adapterVar : List Char
deriving DecidableEq

/-- The prefix normalisation of `src/common/escrow.go` lines 29-31 and
46-48: prepend `0x` when the exact prefix is missing. -/
def normalizeHex (s : List Char) : List Char :=
  if startsWith0xExact s then s else '0' :: 'x' :: s

/-- `GetEscrowAddressesFromEnv`, `src/common/escrow.go` lines 21-57:
for each variable in turn, fail if unset, normalise the prefix, fail if
not a well-formed hex address, and parse it. -/
def GetEscrowAddressesFromEnv (env : Env) : Except GoError (Address × Address) :=
  if env.factoryVar = [] then
    .error (.errNew "ESCROW_FACTORY_ADDRESS environment variable not set")
  else if IsHexAddress (normalizeHex env.factoryVar) = false then
    .error (.errNew "invalid ethereum address format for ESCROW_FACTORY_ADDRESS")
  else if env.adapterVar = [] then
    .error (.errNew "ESCROW_ADAPTER_ADDRESS environment variable not set")
  else if IsHexAddress (normalizeHex env.adapterVar) = false then
    .error (.errNew "invalid ethereum address format for ESCROW_ADAPTER_ADDRESS")
  else
    .ok (HexToAddress (normalizeHex env.factoryVar),
         HexToAddress (normalizeHex env.adapterVar))

/-- `GetEscrowAddressesWithFallback`, `src/common/escrow.go` lines 61-68:
call the strict loader; on any error return the two zero addresses. -/
def GetEscrowAddressesWithFallback (env : Env) : Address × Address :=
  match GetEscrowAddressesFromEnv env with
  | .error _ => (0, 0)
  | .ok p => p

/-! Concrete fixtures used by witnesses and counterexamples. -/

/-- A node whose five capabilities all succeed: nonce 5, gas price 2,
chain id 1, every contract read returning a 32-byte zero word, every
broadcast accepted as transaction 77. -/
def okNet : Network :=
  { pendingNonce := .ok 5
    gasPrice := .ok 2
    chainID := .ok 1
    callContract := fun _ _ => .ok (List.replicate 32 0)
    transact := fun _ _ _ => .ok 77 }

/-- `okNet` with a different suggested gas price. -/
def okNet2 : Network := { okNet with gasPrice := .ok 9 }

/-- A node whose pending-nonce read fails at the transport. -/
def failNet : Network :=
  { okNet with pendingNonce := .error (.transport "connection refused") }

/-- A node that accepts the reads but reverts every broadcast. -/
def revertNet : Network :=
  { okNet with transact := fun _ _ _ => .error (.transport "execution reverted") }

/-- A node whose `getState` read returns the 32-byte word encoding 7. -/
def stateNet7 : Network :=
  { okNet with callContract := fun _ _ => .ok (List.replicate 31 0 ++ [7]) }

/-- `okNet` with the pending nonce `2 ^ 63`, the first value whose
`int64` conversion wraps. -/
def bigNonceNet : Network := { okNet with pendingNonce := .ok (2 ^ 63) }

/-- A client with factory address 10 and adapter address 11. -/
def someClient : XMREscrowClient := ⟨10, 11⟩

/-- Parameters violating all three validation rules of the spec:
zero claimer, `timeout1 = timeout2`, zero value. -/
def invalidParams : SwapParams :=
  { claimer := 0, claimCommitment := 1, refundCommitment := 2
    timeout1 := 5, timeout2 := 5, asset := 0, value := 0 }

/-- Well-formed parameters: non-zero claimer, `timeout1 < timeout2`,
positive value, native asset. -/
def validParams : SwapParams :=
  { claimer := 3, claimCommitment := 1, refundCommitment := 2
    timeout1 := 100, timeout2 := 200, asset := 0, value := 1000 }

/-- The transact opts `getAuth okNet` produces. -/
def okAuth : TransactOpts :=
  { nonce := 5, value := 0, gasLimit := 300000, gasPrice := 2, chainID := 1 }

/-! Theorems settling the claims. -/

/-- C3: constructing the escrow lifecycle client fails, before any network
call, whenever the network handle, the swap-registry reference or the
signing key is nil or the factory or adapter address is zero; and succeeds
when all five are present and non-zero (the constant-ABI parsing always
succeeds). -/
theorem c3_construction_guards (client swapCreator key : Option Unit)
    (factory adapter : Address) :
    (client = none ∨ swapCreator = none ∨ key = none ∨ factory = 0 ∨ adapter = 0 →
      ∃ e, NewXMREscrowClient client swapCreator factory adapter key = .error e) ∧
    (client ≠ none → swapCreator ≠ none → key ≠ none → factory ≠ 0 → adapter ≠ 0 →
      NewXMREscrowClient client swapCreator factory adapter key = .ok ⟨factory, adapter⟩) := by
  constructor
  · intro h
    unfold NewXMREscrowClient
    split_ifs <;> first | exact ⟨_, rfl⟩ | tauto
  · intro h1 h2 h3 h4 h5
    unfold NewXMREscrowClient
    split_ifs <;> first | rfl | tauto

/-- Witness for C3 at concrete inputs: a zero adapter address is rejected,
and a fully-populated configuration is accepted. -/
theorem c3_construction_guards_witness :
    (∃ e, NewXMREscrowClient (some ()) (some ()) 1 0 (some ()) = .error e) ∧
    NewXMREscrowClient (some ()) (some ()) 1 2 (some ()) = .ok ⟨1, 2⟩ :=
  ⟨(c3_construction_guards (some ()) (some ()) (some ()) 1 0).1 (by simp),
   (c3_construction_guards (some ()) (some ()) (some ()) 1 2).2
     (by simp) (by simp) (by simp) (by simp) (by simp)⟩

/-- C4: the address resolution is deterministic — two runs against nodes
that answer the packed call identically return the identical result — and
the packed call carries the adapter address followed by the seven
`SwapParams` fields in canonical order. -/
theorem c4_address_determinism (net1 net2 : Network) (c : XMREscrowClient)
    (p : SwapParams)
    (h : net1.callContract c.factoryAddress (packCalculateEscrowAddress c.adapterAddress p) =
         net2.callContract c.factoryAddress (packCalculateEscrowAddress c.adapterAddress p)) :
    calculateEscrowAddress net1 c p = calculateEscrowAddress net2 c p ∧
    (packCalculateEscrowAddress c.adapterAddress p).method = "calculateEscrowAddress" ∧
    (packCalculateEscrowAddress c.adapterAddress p).args =
      [.addr c.adapterAddress, .addr p.claimer, .word p.claimCommitment,
       .word p.refundCommitment, .uint p.timeout1, .uint p.timeout2,
       .addr p.asset, .uint p.value] := by
  refine ⟨?_, rfl, rfl⟩
  simp only [calculateEscrowAddress]
  rw [h]

/-- Witness for C4: two nodes differing in their gas-price answer resolve
the same address for the same parameters. -/
theorem c4_address_determinism_witness :
    calculateEscrowAddress okNet someClient validParams =
      calculateEscrowAddress okNet2 someClient validParams ∧
    (packCalculateEscrowAddress someClient.adapterAddress validParams).method =
      "calculateEscrowAddress" ∧
    (packCalculateEscrowAddress someClient.adapterAddress validParams).args =
      [.addr someClient.adapterAddress, .addr validParams.claimer,
       .word validParams.claimCommitment, .word validParams.refundCommitment,
       .uint validParams.timeout1, .uint validParams.timeout2,
       .addr validParams.asset, .uint validParams.value] :=
  c4_address_determinism okNet okNet2 someClient validParams rfl

/-- C9: converting an on-chain swap record into `SwapParams` copies each
of the seven fields unchanged, and the round trip through the (spec-)
reverse conversion is the identity. -/
theorem c9_convert_round_trip (swap : SwapCreatorSwap) :
    ConvertParamsToSwapCreatorSwap (ConvertSwapCreatorSwapToParams swap) = swap ∧
    (ConvertSwapCreatorSwapToParams swap).claimer = swap.claimer ∧
    (ConvertSwapCreatorSwapToParams swap).claimCommitment = swap.claimCommitment ∧
    (ConvertSwapCreatorSwapToParams swap).refundCommitment = swap.refundCommitment ∧
    (ConvertSwapCreatorSwapToParams swap).timeout1 = swap.timeout1 ∧
    (ConvertSwapCreatorSwapToParams swap).timeout2 = swap.timeout2 ∧
    (ConvertSwapCreatorSwapToParams swap).asset = swap.asset ∧
    (ConvertSwapCreatorSwapToParams swap).value = swap.value :=
  ⟨rfl, rfl, rfl, rfl, rfl, rfl, rfl, rfl⟩

/-- Modelled from the spec: the four known swap states, in the order of
the spec's lifecycle `Uninitialized → Deposited → {Claimed | Refunded}`;
the client itself defines no state enumeration. -/
def knownStateCodes : List Nat := [0, 1, 2, 3]

/-- The transact opts whose nonce wrapped: `getAuth bigNonceNet`'s
result. -/
def wrapAuth : TransactOpts :=
  { nonce := int64ofUInt64 (2 ^ 63), value := 0, gasLimit := 300000
    gasPrice := 2, chainID := 1 }

/-- An environment holding a prefixed factory address and an unprefixed
adapter address, both well-formed. -/
def envGood : Env :=
  ⟨'0' :: 'x' :: List.replicate 40 'a', List.replicate 40 'b'⟩

/-- An environment with both variables unset. -/
def envBad : Env := ⟨[], []⟩

/-- C5: the signing context built by `getAuth` always carries value 0 and
the fixed gas limit 300000; `CreateSwap`'s override sets the value to
`params.Value` exactly when the asset is the zero address; and Claim and
Refund submit the `getAuth` context unchanged (hence with zero value). -/
theorem c5_fixed_gas_and_value (net : Network) (c : XMREscrowClient)
    (p : SwapParams) (esc : Address) (w : Word) (auth : TransactOpts)
    (h : getAuth net = .ok auth) :
    (auth.value = 0 ∧ auth.gasLimit = 300000) ∧
    ((createSwapOpts auth p).gasLimit = 300000 ∧
      (createSwapOpts auth p).value = if p.asset = 0 then p.value else 0) ∧
    (ClaimSwap net c esc w = net.transact esc auth (packWithdraw w) ∧
      RefundSwap net c esc w = net.transact esc auth (packRefund w)) := by
  have hv : auth.value = 0 ∧ auth.gasLimit = 300000 := by
    unfold getAuth at h
    split at h
    · exact absurd h (by simp)
    · split at h
      · exact absurd h (by simp)
      · split at h
        · exact absurd h (by simp)
        · injection h with h
          subst h
          exact ⟨rfl, rfl⟩
  refine ⟨hv, ⟨?_, ?_⟩, ?_, ?_⟩
  · unfold createSwapOpts
    split <;> simp [hv.2]
  · unfold createSwapOpts
    split <;> simp_all
  · simp [ClaimSwap, h]
  · simp [RefundSwap, h]

/-- Witness for C5 at the concrete node `okNet`. -/
theorem c5_fixed_gas_and_value_witness :
    (okAuth.value = 0 ∧ okAuth.gasLimit = 300000) ∧
    ((createSwapOpts okAuth validParams).gasLimit = 300000 ∧
      (createSwapOpts okAuth validParams).value =
        if validParams.asset = 0 then validParams.value else 0) ∧
    (ClaimSwap okNet someClient 3 7 = okNet.transact 3 okAuth (packWithdraw 7) ∧
      RefundSwap okNet someClient 3 7 = okNet.transact 3 okAuth (packRefund 7)) :=
  c5_fixed_gas_and_value okNet someClient validParams 3 7 okAuth rfl

/-- C7: `CreateSwap` is atomic with respect to broadcast on early failure:
a failing signing-context build or a failing address resolution returns
that error with the zero address and nothing handed to the transact layer;
on success it returns the transaction handle and the predicted address
resolved before submission. -/
theorem c7_create_swap_atomic (net : Network) (c : XMREscrowClient)
    (p : SwapParams) :
    (∀ e, getAuth net = .error e →
      CreateSwap net c p = ⟨none, 0, some e, false⟩) ∧
    (∀ auth e, getAuth net = .ok auth →
      calculateEscrowAddress net c p = .error e →
      CreateSwap net c p = ⟨none, 0, some e, false⟩) ∧
    (∀ auth addr tx, getAuth net = .ok auth →
      calculateEscrowAddress net c p = .ok addr →
      net.transact c.factoryAddress (createSwapOpts auth p)
        (packDeposit c.adapterAddress p) = .ok tx →
      CreateSwap net c p = ⟨some tx, addr, none, true⟩) := by
  refine ⟨fun e h => ?_, fun auth e h1 h2 => ?_, fun auth addr tx h1 h2 h3 => ?_⟩
  · simp [CreateSwap, h]
  · simp [CreateSwap, h1, h2]
  · simp [CreateSwap, h1, h2, h3]

/-- Witness for C7: at a node whose nonce read fails, `CreateSwap` returns
that error with the zero address and no submission. -/
theorem c7_create_swap_atomic_witness :
    CreateSwap failNet someClient validParams =
      ⟨none, 0, some (.transport "connection refused"), false⟩ :=
  (c7_create_swap_atomic failNet someClient validParams).1 _ rfl

/-- C10: the nonce stored by `getAuth` is the pending nonce run through
Go's `int64` conversion: it equals the pending nonce exactly when that
nonce is below `2 ^ 63`, and wraps to a negative value for any pending
nonce in `[2 ^ 63, 2 ^ 64)`. -/
theorem c10_nonce_wrap (net : Network) (n : Nat) (auth : TransactOpts)
    (hn : net.pendingNonce = .ok n) (hlt : n < 2 ^ 64)
    (h : getAuth net = .ok auth) :
    (n < 2 ^ 63 → auth.nonce = (n : Int)) ∧
    (2 ^ 63 ≤ n → auth.nonce = (n : Int) - 2 ^ 64 ∧ auth.nonce < 0) := by
  have hnonce : auth.nonce = int64ofUInt64 n := by
    unfold getAuth at h
    simp only [hn] at h
    cases hg : net.gasPrice with
    | error e2 =>
      simp only [hg] at h
      exact absurd h (by simp)
    | ok g =>
      simp only [hg] at h
      cases hc : net.chainID with
      | error e3 =>
        simp only [hc] at h
        exact absurd h (by simp)
      | ok ci =>
        simp only [hc] at h
        injection h with h
        subst h
        rfl
  have hmod : n % 2 ^ 64 = n := Nat.mod_eq_of_lt hlt
  rw [hnonce]
  unfold int64ofUInt64
  rw [hmod]
  constructor
  · intro hsmall
    rw [if_pos hsmall]
  · intro hbig
    rw [if_neg (by omega)]
    exact ⟨rfl, by omega⟩

/-- Witness for C10 at the first wrapping nonce `2 ^ 63`: the context
carries a negative nonce. -/
theorem c10_nonce_wrap_witness :
    ((2 ^ 63 : Nat) < 2 ^ 63 → wrapAuth.nonce = ((2 ^ 63 : Nat) : Int)) ∧
    (2 ^ 63 ≤ (2 ^ 63 : Nat) →
      wrapAuth.nonce = ((2 ^ 63 : Nat) : Int) - 2 ^ 64 ∧ wrapAuth.nonce < 0) :=
  c10_nonce_wrap bigNonceNet (2 ^ 63) wrapAuth rfl (by norm_num) rfl

/-- C1 counterexample: parameters violating all three validation rules
(`timeout1 = timeout2`, zero value, zero claimer) are not rejected — with
a working node, `CreateSwap` broadcasts the deposit and succeeds, so no
`ValidationError` occurs before the network calls. -/
theorem c1_counterexample :
    invalidParams.timeout1 ≥ invalidParams.timeout2 ∧
    invalidParams.value = 0 ∧ invalidParams.claimer = 0 ∧
    CreateSwap okNet someClient invalidParams = ⟨some 77, 0, none, true⟩ :=
  ⟨by norm_num [invalidParams], rfl, rfl, rfl⟩

/-- C1 amended: neither `SwapParams` construction nor `CreateSwap`
validates parameters — for every parameter record, valid or not, whenever
the network reads, the address resolution and the broadcast succeed,
`CreateSwap` succeeds and the deposit is submitted. -/
theorem c1_no_validation (net : Network) (c : XMREscrowClient)
    (p : SwapParams) (auth : TransactOpts) (addr : Address) (tx : Tx)
    (h1 : getAuth net = .ok auth)
    (h2 : calculateEscrowAddress net c p = .ok addr)
    (h3 : net.transact c.factoryAddress (createSwapOpts auth p)
      (packDeposit c.adapterAddress p) = .ok tx) :
    (CreateSwap net c p).err = none ∧ (CreateSwap net c p).submitted = true := by
  simp [CreateSwap, h1, h2, h3]

/-- Witness for the amended C1 at the invalid parameters themselves. -/
theorem c1_no_validation_witness :
    (CreateSwap okNet someClient invalidParams).err = none ∧
    (CreateSwap okNet someClient invalidParams).submitted = true :=
  c1_no_validation okNet someClient invalidParams okAuth 0 77 rfl rfl rfl

/-- C2 counterexample: a guard-violating claim rejected by the remote
contract surfaces as the raw transport error, which is none of the seven
`ContractRevertError` sentinel variants. -/
theorem c2_counterexample :
    ClaimSwap revertNet someClient 3 7 = .error (.transport "execution reverted") ∧
    isContractRevertSentinel (.transport "execution reverted") = false :=
  ⟨rfl, rfl⟩

/-- C2 amended: every error `ClaimSwap` or `RefundSwap` returns is the
network's own error passed through unmodified (the failing nonce/gas/chain
read or the node's transact error); the client performs no classification
into the sentinel revert variants, which are declared but never
returned. -/
theorem c2_errors_unclassified (net : Network) (c : XMREscrowClient)
    (esc : Address) (w : Word) (e : GoError) :
    (ClaimSwap net c esc w = .error e →
      getAuth net = .error e ∨
        ∃ auth, getAuth net = .ok auth ∧
          net.transact esc auth (packWithdraw w) = .error e) ∧
    (RefundSwap net c esc w = .error e →
      getAuth net = .error e ∨
        ∃ auth, getAuth net = .ok auth ∧
          net.transact esc auth (packRefund w) = .error e) := by
  constructor
  · intro h
    cases hga : getAuth net with
    | error e2 =>
      simp [ClaimSwap, hga] at h
      subst h
      exact .inl rfl
    | ok auth =>
      simp [ClaimSwap, hga] at h
      exact .inr ⟨auth, rfl, h⟩
  · intro h
    cases hga : getAuth net with
    | error e2 =>
      simp [RefundSwap, hga] at h
      subst h
      exact .inl rfl
    | ok auth =>
      simp [RefundSwap, hga] at h
      exact .inr ⟨auth, rfl, h⟩

/-- Witness for the amended C2 at the reverting node. -/
theorem c2_errors_unclassified_witness :
    getAuth revertNet = .error (.transport "execution reverted") ∨
      ∃ auth, getAuth revertNet = .ok auth ∧
        revertNet.transact 3 auth (packWithdraw 7) =
          .error (.transport "execution reverted") :=
  (c2_errors_unclassified revertNet someClient 3 7
    (.transport "execution reverted")).1 rfl

/-- C6 counterexample: a state code outside the four known states is
returned as an ordinary value, not rejected as a decode error. -/
theorem c6_counterexample :
    GetSwapState stateNet7 9 = .ok 7 ∧ 7 ∉ knownStateCodes :=
  ⟨rfl, by decide⟩

/-- C6 amended: `GetSwapState` performs no mapping onto a state
enumeration — any code the ABI decoder accepts (a 32-byte word whose value
is below 256) is returned as-is, known or not; only malformed payloads
produce a decode error. -/
theorem c6_state_unmapped (net : Network) (esc : Address) (bs : List Nat)
    (h : net.callContract esc packGetState = .ok bs)
    (hlen : bs.length = 32) (hval : bytesToNat bs < 256) :
    GetSwapState net esc = .ok (bytesToNat bs) := by
  have ht : bs.take 32 = bs := by
    rw [← hlen]
    exact bs.take_length
  simp only [GetSwapState, h, unpackUint8, ht]
  rw [if_neg (by omega), if_pos hval]

/-- Witness for the amended C6: the unknown code 7 is decoded and
returned. -/
theorem c6_state_unmapped_witness :
    GetSwapState stateNet7 9 = .ok (bytesToNat (List.replicate 31 0 ++ [7])) :=
  c6_state_unmapped stateNet7 9 (List.replicate 31 0 ++ [7]) rfl (by simp)
    (by decide)

/-- C8: the strict loader fails exactly when either variable is unset or,
after prefix normalisation, not a well-formed hex address; the fallback
loader returns the zero addresses on any strict failure and exactly the
strict loader's addresses otherwise (and, returning a plain pair, can
never error). -/
theorem c8_env_loaders (env : Env) :
    ((∃ e, GetEscrowAddressesFromEnv env = .error e) ↔
      (env.factoryVar = [] ∨ IsHexAddress (normalizeHex env.factoryVar) = false ∨
       env.adapterVar = [] ∨ IsHexAddress (normalizeHex env.adapterVar) = false)) ∧
    (∀ e, GetEscrowAddressesFromEnv env = .error e →
      GetEscrowAddressesWithFallback env = (0, 0)) ∧
    (∀ p, GetEscrowAddressesFromEnv env = .ok p →
      GetEscrowAddressesWithFallback env = p) := by
  unfold GetEscrowAddressesWithFallback GetEscrowAddressesFromEnv
  split_ifs with h1 h2 h3 h4 <;> simp_all

/-- Witness for C8: the fallback loader agrees with the strict loader on a
well-formed environment and returns the zero addresses on an empty one. -/
theorem c8_env_loaders_witness :
    GetEscrowAddressesWithFallback envGood =
      (HexToAddress (normalizeHex envGood.factoryVar),
       HexToAddress (normalizeHex envGood.adapterVar)) ∧
    GetEscrowAddressesWithFallback envBad = (0, 0) :=
  ⟨(c8_env_loaders envGood).2.2 _ rfl,
   (c8_env_loaders envBad).2.1 _ rfl⟩

end XmrEthSwap
